import Mathlib

/-!
Verification of the Stroll procedural-city walking simulator.

This file shallowly embeds the generation, collision, movement, NPC,
collectible and startup logic of the repository (src/js/city.js,
src/js/npcs.js + the controls module concatenated to it, src/js/main.js,
src/js/collectibles.js, src/js/config.js, src/unnamed/part_005) and proves
or refutes the testable properties stated in the specification.

Modelling conventions:
* JavaScript numbers are modelled as rationals (all constants in the code
  are exact decimals, and no claim depends on floating-point rounding).
* `Math.random()` driven choices are modelled as explicit oracle
  parameters (sample streams `ℕ → ℚ × ℚ`, skip predicates
  `ℕ → ℕ → Bool`, a per-building `lit : Bool` roll), so that each theorem
  quantifies over every possible random outcome.
* Distance tests `Math.sqrt(d) < r` are embedded as `d < r * r`, which is
  equivalent for `0 ≤ d` and `0 < r`.
-/

-- ── Constants from src/js/config.js ──────────────────────────

def CITY_SIZE : ℚ := 200

def CITY_BOUND_MARGIN : ℚ := 2

def COLLISION_PADDING : ℚ := 3 / 2

def WINDOW_SPACING_Y : ℚ := 3

def WINDOW_SPACING_X : ℚ := 5 / 2

def NPC_MIN_SPEED : ℚ := 3 / 200

def NPC_SPEED_RANGE : ℚ := 3 / 200

/-- Pickup radius from src/js/collectibles.js (`PICKUP_RADIUS = 3.5`). -/
def PICKUP_RADIUS : ℚ := 7 / 2

/-- World half-extent minus margin, as computed in both player update
functions: `const bound = CITY_SIZE / 2 - CITY_BOUND_MARGIN`. -/
def cityBound : ℚ := CITY_SIZE / 2 - CITY_BOUND_MARGIN

-- ── Collision field (src/js/city.js) ─────────────────────────

/-- A building record as pushed by `createBuilding` in src/js/city.js:
`buildings.push({ x, z, width, depth, height })`. -/
structure Building where
  x : ℚ
  z : ℚ
  width : ℚ
  depth : ℚ
  height : ℚ
deriving DecidableEq

/-- `isInsideBuilding(x, z, padding)` from src/js/city.js lines 516-525:
a linear scan over the buildings list, testing the point against each
building's rectangle expanded by `padding`, with strict `<` / `>`
comparisons exactly as in the source. -/
def isInsideBuilding (bs : List Building) (x z padding : ℚ) : Bool :=
  bs.any fun b =>
    decide (b.x - b.width / 2 - padding < x) && decide (x < b.x + b.width / 2 + padding) &&
    decide (b.z - b.depth / 2 - padding < z) && decide (z < b.z + b.depth / 2 + padding)

/-- Modelled from the spec: the spec's §4.1 reading of the query, in which a
point counts as blocked when it lies within the expanded rectangle
*including points exactly on the expanded rectangle's boundary* (closed
rectangle, `≤` comparisons). Used only to compare the spec's wording with
`isInsideBuilding`. -/
def isInsideBuildingSpecClosed (bs : List Building) (x z padding : ℚ) : Bool :=
  bs.any fun b =>
    decide (b.x - b.width / 2 - padding ≤ x) && decide (x ≤ b.x + b.width / 2 + padding) &&
    decide (b.z - b.depth / 2 - padding ≤ z) && decide (z ≤ b.z + b.depth / 2 + padding)

-- ── Player controller (controls module in src/js/npcs.js concatenation,
--    lines 476-492; identical logic in src/js/main.js lines 1504-1515) ──

/-- The mutable player position `{ x, z }` (yaw/pitch only affect the
direction of the attempted displacement, which the claims quantify over
directly). -/
structure PlayerPos where
  x : ℚ
  z : ℚ
deriving DecidableEq

/-- The sliding collision resolution of `updatePlayer`: try the full 2D
move, then X-only, then Z-only, else stay. -/
def slideResolve (bs : List Building) (p : PlayerPos) (newX newZ : ℚ) : PlayerPos :=
  if isInsideBuilding bs newX newZ COLLISION_PADDING = false then ⟨newX, newZ⟩
  else if isInsideBuilding bs newX p.z COLLISION_PADDING = false then ⟨newX, p.z⟩
  else if isInsideBuilding bs p.x newZ COLLISION_PADDING = false then ⟨p.x, newZ⟩
  else p

/-- `Math.max(-bound, Math.min(bound, v))` with `bound = CITY_SIZE / 2 -
CITY_BOUND_MARGIN`. -/
def clampCoord (v : ℚ) : ℚ := max (-cityBound) (min cityBound v)

/-- One call of the player controller's `updatePlayer` on the position
state, for an attempted world-space displacement `(dx, dz)` (in the source
`dx = (moveX * cosYaw + moveZ * sinYaw) * speed` and similarly `dz`; the
claims quantify over the displacement itself): sliding collision
resolution followed by the clamp to city bounds. -/
def updatePlayer (bs : List Building) (p : PlayerPos) (dx dz : ℚ) : PlayerPos :=
  let r := slideResolve bs p (p.x + dx) (p.z + dz)
  ⟨clampCoord r.x, clampCoord r.z⟩

-- ── Rejection-sampling placers ───────────────────────────────

/-- The `do { x,z = sample; attempts++ } while (isInsideBuilding(x, z) &&
attempts < cap)` loop shared by `generateTrees` (src/js/city.js lines
331-344) and `generateBenches` (lines 414-427), both with the default
padding 1 and cap 20. `i` is the number of attempts already made and
`fuel = cap - i` the remaining allowance; the result is the last sampled
point together with the final `attempts` counter. -/
def placeLoopAux (bs : List Building) (pad : ℚ) (samples : ℕ → ℚ × ℚ) : ℕ → ℕ → (ℚ × ℚ) × ℕ
  | i, 0 => (samples i, i + 1)
  | i, fuel + 1 =>
    if isInsideBuilding bs (samples i).1 (samples i).2 pad ∧ 0 < fuel then
      placeLoopAux bs pad samples (i + 1) fuel
    else (samples i, i + 1)

/-- The placement decision after the loop: `if (attempts < cap)` the
sampled point is used, otherwise the instance is silently dropped. -/
def placeEntity (bs : List Building) (pad : ℚ) (samples : ℕ → ℚ × ℚ) (cap : ℕ) : Option (ℚ × ℚ) :=
  if (placeLoopAux bs pad samples 0 cap).2 < cap then
    some (placeLoopAux bs pad samples 0 cap).1
  else none

/-- `findValidPosition` from src/js/collectibles.js lines 84-91: a
`for (attempt = 0; attempt < 30; attempt++)` loop returning the first
sampled point not blocked with padding 2, else `null`. The `range`
argument of the source only scales the random candidates and is absorbed
into the sample oracle. -/
def findValidPosGo (bs : List Building) (samples : ℕ → ℚ × ℚ) : ℕ → ℕ → Option (ℚ × ℚ)
  | _, 0 => none
  | attempt, remaining + 1 =>
    if isInsideBuilding bs (samples attempt).1 (samples attempt).2 2 then
      findValidPosGo bs samples (attempt + 1) remaining
    else some (samples attempt)

def findValidPosition (bs : List Building) (samples : ℕ → ℚ × ℚ) : Option (ℚ × ℚ) :=
  findValidPosGo bs samples 0 30

-- ── Facade / window batcher (src/js/city.js lines 135-210) ───

/-- Which of the four vertical faces a window slot sits on (the source
encodes this as a yaw of 0, π, -π/2 or π/2). -/
inductive Facing
  | front
  | back
  | left
  | right
deriving DecidableEq

/-- One window slot: rigid transform position plus facing. -/
structure WindowSlot where
  x : ℚ
  y : ℚ
  z : ℚ
  facing : Facing
deriving DecidableEq

/-- `numFloors = Math.floor(height / WINDOW_SPACING_Y)` (loop runs for
`0 ≤ floor < numFloors`, hence `toNat`). -/
def numFloorsOf (height : ℚ) : ℕ := (⌊height / WINDOW_SPACING_Y⌋).toNat

/-- `Math.floor(w / WINDOW_SPACING_X)`, used for both `numWinX` (width)
and `numWinZ` (depth). -/
def numWindowsAcross (w : ℚ) : ℕ := (⌊w / WINDOW_SPACING_X⌋).toNat

/-- `localX = -width / 2 + WINDOW_SPACING_X * (wx + 0.5) + (width -
numWinX * WINDOW_SPACING_X) / 2`. -/
def windowLocalX (width : ℚ) (wx : ℕ) : ℚ :=
  -width / 2 + WINDOW_SPACING_X * ((wx : ℚ) + 1 / 2)
    + (width - (numWindowsAcross width : ℚ) * WINDOW_SPACING_X) / 2

/-- `localY = -height / 2 + WINDOW_SPACING_Y * (floor + 0.5) + 1`. -/
def windowLocalY (height : ℚ) (floor : ℕ) : ℚ :=
  -height / 2 + WINDOW_SPACING_Y * ((floor : ℚ) + 1 / 2) + 1

/-- `localZ = -depth / 2 + WINDOW_SPACING_X * (wz + 0.5) + (depth -
numWinZ * WINDOW_SPACING_X) / 2`. -/
def windowLocalZ (depth : ℚ) (wz : ℕ) : ℚ :=
  -depth / 2 + WINDOW_SPACING_X * ((wz : ℚ) + 1 / 2)
    + (depth - (numWindowsAcross depth : ℚ) * WINDOW_SPACING_X) / 2

/-- The front & back loop of `collectWindows`: one skip roll per
(floor, wx) cell; a surviving cell emits the front slot (at `bz + depth/2
+ 0.01`, facing out) and the back slot (at `bz - depth/2 - 0.01`). All
slots of the building carry the building's single `lit` roll. -/
def frontBackSlots (bx height bz width depth : ℚ) (lit : Bool)
    (skipFB : ℕ → ℕ → Bool) : List (WindowSlot × Bool) :=
  (List.range (numFloorsOf height)).flatMap fun floor =>
    (List.range (numWindowsAcross width)).flatMap fun wx =>
      if skipFB floor wx then []
      else
        [(⟨bx + windowLocalX width wx, height / 2 + windowLocalY height floor,
            bz + depth / 2 + 1 / 100, Facing.front⟩, lit),
         (⟨bx + windowLocalX width wx, height / 2 + windowLocalY height floor,
            bz - depth / 2 - 1 / 100, Facing.back⟩, lit)]

/-- The side-face loop of `collectWindows`: one skip roll per (floor, wz)
cell; a surviving cell emits the left slot (at `bx - width/2 - 0.01`) and
the right slot (at `bx + width/2 + 0.01`). -/
def sideSlots (bx height bz width depth : ℚ) (lit : Bool)
    (skipLR : ℕ → ℕ → Bool) : List (WindowSlot × Bool) :=
  (List.range (numFloorsOf height)).flatMap fun floor =>
    (List.range (numWindowsAcross depth)).flatMap fun wz =>
      if skipLR floor wz then []
      else
        [(⟨bx - width / 2 - 1 / 100, height / 2 + windowLocalY height floor,
            bz + windowLocalZ depth wz, Facing.left⟩, lit),
         (⟨bx + width / 2 + 1 / 100, height / 2 + windowLocalY height floor,
            bz + windowLocalZ depth wz, Facing.right⟩, lit)]

/-- `collectWindows(bx, height, bz, width, depth)` from src/js/city.js
lines 135-187, with the per-building `lit = Math.random() < 0.4` roll and
the per-cell skip rolls passed as oracles. -/
def collectWindows (bx height bz width depth : ℚ) (lit : Bool)
    (skipFB skipLR : ℕ → ℕ → Bool) : List (WindowSlot × Bool) :=
  frontBackSlots bx height bz width depth lit skipFB ++
    sideSlots bx height bz width depth lit skipLR

/-- `buildWindowInstances` from src/js/city.js lines 193-210: split the
accumulated transforms by the `lit` flag and build one instanced mesh
(batched draw call) per nonempty group. Each returned pair is one draw
call: its material flag and the instances it renders. -/
def buildWindowInstances (ws : List (WindowSlot × Bool)) :
    List (Bool × List (WindowSlot × Bool)) :=
  (if 0 < (ws.filter fun w => w.2).length then [(true, ws.filter fun w => w.2)] else []) ++
    (if 0 < (ws.filter fun w => !w.2).length then [(false, ws.filter fun w => !w.2)] else [])

/-- Window instances skipped in one row of `m` cells (each skipped cell
omits 2 window instances: both opposite faces share the one roll). -/
def skippedRow (g : ℕ → Bool) : ℕ → ℕ
  | 0 => 0
  | m + 1 => skippedRow g m + (if g m then 2 else 0)

/-- Window instances skipped over an `n`-floor, `m`-column face pair. -/
def skippedInstances (g : ℕ → ℕ → Bool) : ℕ → ℕ → ℕ
  | 0, _ => 0
  | f + 1, m => skippedInstances g f m + skippedRow (g f) m

-- ── Collectibles (src/js/collectibles.js lines 271-327) ──────

/-- The claim-relevant state of one collectible: its position and the
`collected` flag. -/
structure Collectible where
  x : ℚ
  z : ℚ
  collected : Bool
deriving DecidableEq

/-- The one-shot side effects fired when an item is picked up:
`justCollected = c`, `spawnCollectionParticles(...)`, `animateCollect(c)`. -/
structure CollectibleEffects where
  justCollected : Bool
  particlesSpawned : Bool
  collectAnimStarted : Bool
deriving DecidableEq

/-- The per-item body of `updateCollectibles`: an already-collected item
is skipped outright (`if (c.collected) return`); otherwise, if the planar
distance to the player is below `PICKUP_RADIUS`, the flag flips to true
and the one-shot effects fire. (`Math.sqrt(d) < r` is embedded as
`d < r * r`.) -/
def updateCollectible (c : Collectible) (px pz : ℚ) : Collectible × CollectibleEffects :=
  if c.collected then (c, ⟨false, false, false⟩)
  else
    let dx := c.x - px
    let dz := c.z - pz
    if dx * dx + dz * dz < PICKUP_RADIUS * PICKUP_RADIUS then
      ({ c with collected := true }, ⟨true, true, true⟩)
    else (c, ⟨false, false, false⟩)

-- ── NPC walkers (src/js/npcs.js lines 173-213) ───────────────

/-- The claim-relevant fields of an `NPCData` record: the waypoint path,
the current segment index, the per-NPC speed, and the interpolation
progress along the current segment. -/
structure NPCData where
  path : List (ℚ × ℚ)
  pathIndex : ℕ
  speed : ℚ
  progress : ℚ
deriving DecidableEq

/-- The walker's interpolated position on segment `i` at parameter `t`:
`from + (to - from) * t` with `from = path[i]` and
`to = path[(i + 1) % path.length]` (out-of-range reads never occur for a
well-formed walker; `getD` makes the model total). -/
def npcPosition (path : List (ℚ × ℚ)) (i : ℕ) (t : ℚ) : ℚ × ℚ :=
  let fromPt := path.getD i (0, 0)
  let toPt := path.getD ((i + 1) % path.length) (0, 0)
  (fromPt.1 + (toPt.1 - fromPt.1) * t, fromPt.2 + (toPt.2 - fromPt.2) * t)

/-- One update tick of a single (non-culled) NPC from `updateNPCs`:
`progress += speed * delta * 60`; on reaching 1 it resets to 0 and the
index advances modulo the path length; the mesh position is then the lerp
of the segment captured *before* the wrap, at the updated progress. -/
def updateNPC (npc : NPCData) (delta : ℚ) : NPCData × (ℚ × ℚ) :=
  let progressRaw := npc.progress + npc.speed * delta * 60
  let newProgress := if 1 ≤ progressRaw then 0 else progressRaw
  let newIndex := if 1 ≤ progressRaw then (npc.pathIndex + 1) % npc.path.length else npc.pathIndex
  ({ npc with progress := newProgress, pathIndex := newIndex },
   npcPosition npc.path npc.pathIndex newProgress)

-- ── Startup (src/unnamed/part_005: init / setupScene) ────────

/-- Progress flags of the startup sequence in src/unnamed/part_005,
in the order `init()` runs them. -/
structure InitState where
  errorShown : Bool
  rendererReady : Bool
  cityGenerated : Bool
  npcsGenerated : Bool
  collectiblesCreated : Bool
  controlsSetup : Bool
  animationStarted : Bool
deriving DecidableEq

def startState : InitState := ⟨false, false, false, false, false, false, false⟩

/-- `setupScene` (src/unnamed/part_005 lines 150-189): if no WebGL
context can be obtained, show the error message and `return` (only out of
`setupScene`); otherwise create the renderer, which may itself throw and
be caught with another error message. -/
def setupScene (glAvailable rendererOk : Bool) (st : InitState) : InitState :=
  if !glAvailable then { st with errorShown := true }
  else if rendererOk then { st with rendererReady := true }
  else { st with errorShown := true }

/-- `init` (src/unnamed/part_005 lines 75-146): after `setupScene`
returns, the remaining initialization steps run unconditionally
(`generateCity`, `generateNPCs`, `createCollectibles`, ...). The first
access to the renderer after a failed probe is `setupControls(renderer,
camera)`, which throws on the undefined renderer, so the steps from there
on (controls setup, the first render and `animate()`) never run. -/
def init (glAvailable rendererOk : Bool) : InitState :=
  let st0 := setupScene glAvailable rendererOk startState
  let st1 := { st0 with cityGenerated := true }
  let st2 := { st1 with npcsGenerated := true }
  let st3 := { st2 with collectiblesCreated := true }
  if st3.rendererReady then { st3 with controlsSetup := true, animationStarted := true }
  else st3

-- ── Helper lemmas ────────────────────────────────────────────

lemma clampCoord_mem (v : ℚ) : -cityBound ≤ clampCoord v ∧ clampCoord v ≤ cityBound := by
  unfold clampCoord
  constructor
  · exact le_max_left _ _
  · refine max_le ?_ (min_le_left _ _)
    norm_num [cityBound, CITY_SIZE, CITY_BOUND_MARGIN]

lemma placeLoopAux_valid (bs : List Building) (pad : ℚ) (samples : ℕ → ℚ × ℚ) :
    ∀ fuel i, (placeLoopAux bs pad samples i fuel).2 < i + fuel →
      isInsideBuilding bs (placeLoopAux bs pad samples i fuel).1.1
        (placeLoopAux bs pad samples i fuel).1.2 pad = false := by
  intro fuel
  induction fuel with
  | zero =>
    intro i h
    simp only [placeLoopAux] at h
    omega
  | succ n ih =>
    intro i h
    rw [placeLoopAux] at h ⊢
    split_ifs at h ⊢ with hc
    · exact ih (i + 1) (by omega)
    · have hn : 0 < n := by omega
      cases hb : isInsideBuilding bs (samples i).1 (samples i).2 pad
      · rfl
      · exact absurd ⟨hb, hn⟩ hc

lemma findValidPosGo_valid (bs : List Building) (samples : ℕ → ℚ × ℚ) :
    ∀ remaining attempt x z, findValidPosGo bs samples attempt remaining = some (x, z) →
      isInsideBuilding bs x z 2 = false := by
  intro remaining
  induction remaining with
  | zero => intro a x z h; simp [findValidPosGo] at h
  | succ n ih =>
    intro a x z h
    rw [findValidPosGo] at h
    split_ifs at h with hc
    · exact ih (a + 1) x z h
    · have hs : samples a = (x, z) := by injection h
      cases hb : isInsideBuilding bs x z 2
      · rfl
      · rw [hs] at hc
        exact absurd hb hc

lemma length_flatMap_pair {α : Type} (g : ℕ → Bool) (mk : ℕ → List α)
    (hmk : ∀ j, (mk j).length = 2) :
    ∀ m, ((List.range m).flatMap fun j => if g j then [] else mk j).length
      + skippedRow g m = 2 * m := by
  intro m
  induction m with
  | zero => simp [skippedRow]
  | succ n ih =>
    rw [List.range_succ]
    simp only [List.flatMap_append, List.length_append, skippedRow,
      List.flatMap_cons, List.flatMap_nil, List.append_nil]
    cases hg : g n <;> simp only [hg, if_true, if_false, Bool.false_eq_true,
      List.length_nil, hmk] <;> omega

lemma length_face {α : Type} (g : ℕ → ℕ → Bool) (mk : ℕ → ℕ → List α)
    (hmk : ∀ i j, (mk i j).length = 2) :
    ∀ n m, ((List.range n).flatMap fun i =>
        (List.range m).flatMap fun j => if g i j then [] else mk i j).length
      + skippedInstances g n m = 2 * (n * m) := by
  intro n m
  induction n with
  | zero => simp [skippedInstances]
  | succ k ih =>
    rw [List.range_succ]
    simp only [List.flatMap_append, List.length_append, skippedInstances,
      List.flatMap_cons, List.flatMap_nil, List.append_nil]
    have hrow := length_flatMap_pair (g k) (mk k) (fun j => hmk k j) m
    have hmul : 2 * ((k + 1) * m) = 2 * (k * m) + 2 * m := by ring
    omega

lemma mem_face {α : Type} (g : ℕ → ℕ → Bool) (a b : ℕ → ℕ → α) (n m : ℕ) (w : α)
    (hw : w ∈ (List.range n).flatMap fun i =>
      (List.range m).flatMap fun j => if g i j then [] else [a i j, b i j]) :
    ∃ i j, w = a i j ∨ w = b i j := by
  simp only [List.mem_flatMap, List.mem_range] at hw
  obtain ⟨i, -, j, -, hmem⟩ := hw
  split_ifs at hmem
  · simp at hmem
  · simp only [List.mem_cons, List.not_mem_nil, or_false] at hmem
    exact ⟨i, j, hmem⟩

lemma skippedRow_zero : ∀ m, skippedRow (fun _ => false) m = 0 := by
  intro m
  induction m with
  | zero => rfl
  | succ n ih => simp [skippedRow, ih]

lemma skippedInstances_zero (m : ℕ) : ∀ n, skippedInstances (fun _ _ => false) n m = 0 := by
  intro n
  induction n with
  | zero => rfl
  | succ k ih => simp [skippedInstances, ih, skippedRow_zero]

lemma length_filter_partition {α : Type} (p : α → Bool) :
    ∀ l : List α, (l.filter p).length + (l.filter fun x => !p x).length = l.length := by
  intro l
  induction l with
  | nil => simp
  | cons x t ih => cases hx : p x <;> simp [List.filter_cons, hx] <;> omega

-- ── Claims ───────────────────────────────────────────────────

/-- Claim C5 (counterexample): the claim says `isBlocked` is true for
points exactly on the expanded rectangle's boundary. Take the single
building `{x: 0, z: 0, width: 2, depth: 2, height: 5}` and padding 1: the
point (2, 0) lies exactly on the right edge of the expanded rectangle
[-2, 2] × [-2, 2] (so the claim requires `true`), yet the code's strict
comparisons return `false`. -/
theorem isInsideBuilding_boundary_counterexample :
    isInsideBuildingSpecClosed [⟨0, 0, 2, 2, 5⟩] 2 0 1 = true ∧
    isInsideBuilding [⟨0, 0, 2, 2, 5⟩] 2 0 1 = false := by
  constructor <;> norm_num [isInsideBuildingSpecClosed, isInsideBuilding]

/-- Claim C5 (amended): for every point and padding, `isInsideBuilding`
returns true iff the point lies *strictly* within some stored building's
rectangle expanded by the padding on all sides — points exactly on the
expanded boundary are not blocked. Totality (always returns a boolean) is
immediate from the type. -/
theorem isInsideBuilding_iff_strict (bs : List Building) (x z padding : ℚ) :
    isInsideBuilding bs x z padding = true ↔
      ∃ b ∈ bs, b.x - b.width / 2 - padding < x ∧ x < b.x + b.width / 2 + padding ∧
        b.z - b.depth / 2 - padding < z ∧ z < b.z + b.depth / 2 + padding := by
  simp [isInsideBuilding, List.any_eq_true, and_assoc]

/-- Claim C1 (counterexample): the claim asserts the post-update position
is never blocked. With the building `{x: 101, z: 0, width: 10, depth: 10}`
(padded rectangle (94.5, 107.5) × (-6.5, 6.5)), the unblocked start
(94, 0) and displacement (14.5, 0): the full move to (108.5, 0) is not
blocked, so the slide accepts it, but the subsequent clamp to bound 98
lands at (98, 0), which is inside the padded rectangle. -/
theorem updatePlayer_blocked_after_clamp_counterexample :
    isInsideBuilding [⟨101, 0, 10, 10, 12⟩] 94 0 COLLISION_PADDING = false ∧
    updatePlayer [⟨101, 0, 10, 10, 12⟩] ⟨94, 0⟩ (29 / 2) 0 = ⟨98, 0⟩ ∧
    isInsideBuilding [⟨101, 0, 10, 10, 12⟩] 98 0 COLLISION_PADDING = true := by
  refine ⟨?_, ?_, ?_⟩ <;>
    norm_num [isInsideBuilding, updatePlayer, slideResolve, clampCoord,
      COLLISION_PADDING, cityBound, CITY_SIZE, CITY_BOUND_MARGIN]

/-- Claim C1 (amended): for an unblocked start, the position produced by
the sliding resolution — before the world-bounds clamp — is itself not
blocked and equals one of: full move, X-only move, Z-only move, or the
start unchanged; the controller's final position is the coordinate-wise
clamp of that resolved position (and only this clamp can re-enter a
padded rectangle). -/
theorem updatePlayer_slide_sound (bs : List Building) (p : PlayerPos) (dx dz : ℚ)
    (h : isInsideBuilding bs p.x p.z COLLISION_PADDING = false) :
    isInsideBuilding bs (slideResolve bs p (p.x + dx) (p.z + dz)).x
      (slideResolve bs p (p.x + dx) (p.z + dz)).z COLLISION_PADDING = false ∧
    (slideResolve bs p (p.x + dx) (p.z + dz) = ⟨p.x + dx, p.z + dz⟩ ∨
     slideResolve bs p (p.x + dx) (p.z + dz) = ⟨p.x + dx, p.z⟩ ∨
     slideResolve bs p (p.x + dx) (p.z + dz) = ⟨p.x, p.z + dz⟩ ∨
     slideResolve bs p (p.x + dx) (p.z + dz) = p) ∧
    updatePlayer bs p dx dz =
      ⟨clampCoord (slideResolve bs p (p.x + dx) (p.z + dz)).x,
       clampCoord (slideResolve bs p (p.x + dx) (p.z + dz)).z⟩ := by
  have key : isInsideBuilding bs (slideResolve bs p (p.x + dx) (p.z + dz)).x
      (slideResolve bs p (p.x + dx) (p.z + dz)).z COLLISION_PADDING = false ∧
      (slideResolve bs p (p.x + dx) (p.z + dz) = ⟨p.x + dx, p.z + dz⟩ ∨
       slideResolve bs p (p.x + dx) (p.z + dz) = ⟨p.x + dx, p.z⟩ ∨
       slideResolve bs p (p.x + dx) (p.z + dz) = ⟨p.x, p.z + dz⟩ ∨
       slideResolve bs p (p.x + dx) (p.z + dz) = p) := by
    unfold slideResolve
    by_cases h1 : isInsideBuilding bs (p.x + dx) (p.z + dz) COLLISION_PADDING = false
    · rw [if_pos h1]
      exact ⟨h1, Or.inl rfl⟩
    · rw [if_neg h1]
      by_cases h2 : isInsideBuilding bs (p.x + dx) p.z COLLISION_PADDING = false
      · rw [if_pos h2]
        exact ⟨h2, Or.inr (Or.inl rfl)⟩
      · rw [if_neg h2]
        by_cases h3 : isInsideBuilding bs p.x (p.z + dz) COLLISION_PADDING = false
        · rw [if_pos h3]
          exact ⟨h3, Or.inr (Or.inr (Or.inl rfl))⟩
        · rw [if_neg h3]
          exact ⟨h, Or.inr (Or.inr (Or.inr rfl))⟩
  exact ⟨key.1, key.2, rfl⟩

/-- Claim C1 (witness): instantiation at the empty city, start (0, 0),
displacement (1, 2). -/
theorem updatePlayer_slide_sound_witness :
    isInsideBuilding ([] : List Building)
      (slideResolve [] ⟨0, 0⟩ ((0 : ℚ) + 1) ((0 : ℚ) + 2)).x
      (slideResolve [] ⟨0, 0⟩ ((0 : ℚ) + 1) ((0 : ℚ) + 2)).z COLLISION_PADDING = false :=
  (updatePlayer_slide_sound [] ⟨0, 0⟩ 1 2 rfl).1

/-- Claim C3: after every player update — from any start, any attempted
displacement and any building list — both final coordinates lie within
[-bound, bound], where bound = CITY_SIZE / 2 - CITY_BOUND_MARGIN = 98.
This holds for every frame of every input sequence because each frame
ends with the clamp. -/
theorem updatePlayer_within_bounds (bs : List Building) (p : PlayerPos) (dx dz : ℚ) :
    cityBound = 98 ∧
    (-cityBound ≤ (updatePlayer bs p dx dz).x ∧ (updatePlayer bs p dx dz).x ≤ cityBound) ∧
    (-cityBound ≤ (updatePlayer bs p dx dz).z ∧ (updatePlayer bs p dx dz).z ≤ cityBound) := by
  exact ⟨by norm_num [cityBound, CITY_SIZE, CITY_BOUND_MARGIN],
    clampCoord_mem _, clampCoord_mem _⟩

/-- Claim C2: whenever a bounded rejection-sampling placer actually
places an entity, the position is unblocked for that placer's padding —
trees and benches use padding 1 with retry cap 20, collectibles use
padding 2 with cap 30; on cap exhaustion the placer returns none (the
instance is dropped), so placed counts may fall short of requested
counts. -/
theorem placement_valid_or_dropped (bs : List Building) (samples : ℕ → ℚ × ℚ) (x z : ℚ) :
    (placeEntity bs 1 samples 20 = some (x, z) → isInsideBuilding bs x z 1 = false) ∧
    (findValidPosition bs samples = some (x, z) → isInsideBuilding bs x z 2 = false) := by
  constructor
  · intro h
    unfold placeEntity at h
    split_ifs at h with hlt
    · have hv := placeLoopAux_valid bs 1 samples 20 0 (by omega)
      have hp : (placeLoopAux bs 1 samples 0 20).1 = (x, z) := by injection h
      rw [hp] at hv
      exact hv
  · intro h
    exact findValidPosGo_valid bs samples 30 0 x z h

/-- Claim C2 (witness): in the empty city the first sample is accepted by
both placers. -/
theorem placement_valid_or_dropped_witness :
    isInsideBuilding ([] : List Building) 50 50 1 = false ∧
    isInsideBuilding ([] : List Building) 50 50 2 = false :=
  ⟨(placement_valid_or_dropped [] (fun _ => (50, 50)) 50 50).1 rfl,
   (placement_valid_or_dropped [] (fun _ => (50, 50)) 50 50).2 rfl⟩

/-- Claim C4 helper: the general slot count of `collectWindows`. -/
lemma collectWindows_length (bx height bz width depth : ℚ) (lit : Bool)
    (skipFB skipLR : ℕ → ℕ → Bool) :
    (collectWindows bx height bz width depth lit skipFB skipLR).length
      = 2 * (numFloorsOf height * numWindowsAcross width)
        + 2 * (numFloorsOf height * numWindowsAcross depth)
        - (skippedInstances skipFB (numFloorsOf height) (numWindowsAcross width)
          + skippedInstances skipLR (numFloorsOf height) (numWindowsAcross depth)) := by
  have hfb : (frontBackSlots bx height bz width depth lit skipFB).length
      + skippedInstances skipFB (numFloorsOf height) (numWindowsAcross width)
      = 2 * (numFloorsOf height * numWindowsAcross width) := by
    unfold frontBackSlots
    exact length_face skipFB
      (fun floor wx =>
        [((⟨bx + windowLocalX width wx, height / 2 + windowLocalY height floor,
            bz + depth / 2 + 1 / 100, Facing.front⟩, lit) : WindowSlot × Bool),
         ((⟨bx + windowLocalX width wx, height / 2 + windowLocalY height floor,
            bz - depth / 2 - 1 / 100, Facing.back⟩, lit) : WindowSlot × Bool)])
      (fun _ _ => rfl) (numFloorsOf height) (numWindowsAcross width)
  have hside : (sideSlots bx height bz width depth lit skipLR).length
      + skippedInstances skipLR (numFloorsOf height) (numWindowsAcross depth)
      = 2 * (numFloorsOf height * numWindowsAcross depth) := by
    unfold sideSlots
    exact length_face skipLR
      (fun floor wz =>
        [((⟨bx - width / 2 - 1 / 100, height / 2 + windowLocalY height floor,
            bz + windowLocalZ depth wz, Facing.left⟩, lit) : WindowSlot × Bool),
         ((⟨bx + width / 2 + 1 / 100, height / 2 + windowLocalY height floor,
            bz + windowLocalZ depth wz, Facing.right⟩, lit) : WindowSlot × Bool)])
      (fun _ _ => rfl) (numFloorsOf height) (numWindowsAcross depth)
  simp only [collectWindows, List.length_append]
  omega

/-- Claim C4: for every building and every outcome of the skip rolls, the
number of window slots generated by `collectWindows` equals
2·(floors·columnsWidth) + 2·(floors·columnsDepth) minus the number of
slots skipped (each skipped cell removes the two opposite-face slots it
would have produced); in particular a 12×10×10 building with floor
spacing 3 and column spacing 2.5 and no skipping yields exactly 64 slots. -/
theorem collectWindows_count (bx height bz width depth : ℚ) (lit : Bool)
    (skipFB skipLR : ℕ → ℕ → Bool) :
    ((collectWindows bx height bz width depth lit skipFB skipLR).length
      = 2 * (numFloorsOf height * numWindowsAcross width)
        + 2 * (numFloorsOf height * numWindowsAcross depth)
        - (skippedInstances skipFB (numFloorsOf height) (numWindowsAcross width)
          + skippedInstances skipLR (numFloorsOf height) (numWindowsAcross depth))) ∧
    (collectWindows 0 12 0 10 10 false (fun _ _ => false) (fun _ _ => false)).length = 64 := by
  refine ⟨collectWindows_length bx height bz width depth lit skipFB skipLR, ?_⟩
  rw [collectWindows_length]
  have hf : numFloorsOf 12 = 4 := by
    norm_num [numFloorsOf, WINDOW_SPACING_Y]
    decide
  have hw10 : numWindowsAcross 10 = 4 := by
    norm_num [numWindowsAcross, WINDOW_SPACING_X]
    decide
  rw [hf, hw10, skippedInstances_zero]

/-- Claim C8: each building's window slots all carry the building's
single lit/unlit roll (one roll per building, not per window); the
city-wide slot list is partitioned by `buildWindowInstances` into the lit
group and the unlit group — the two groups are disjoint, their union is
exactly the generated slots, and their lengths sum to the total — and at
most two batched draw calls are produced. -/
theorem window_lit_partition (bx height bz width depth : ℚ) (lit : Bool)
    (skipFB skipLR : ℕ → ℕ → Bool) (ws : List (WindowSlot × Bool)) (w : WindowSlot × Bool) :
    (w ∈ collectWindows bx height bz width depth lit skipFB skipLR → w.2 = lit) ∧
    ((ws.filter fun v => v.2).length + (ws.filter fun v => !v.2).length = ws.length) ∧
    (w ∈ ws.filter (fun v => v.2) ↔ w ∈ ws ∧ w.2 = true) ∧
    (w ∈ ws.filter (fun v => !v.2) ↔ w ∈ ws ∧ w.2 = false) ∧
    (buildWindowInstances ws).length ≤ 2 := by
  refine ⟨?_, length_filter_partition _ ws, ?_, ?_, ?_⟩
  · intro hw
    simp only [collectWindows] at hw
    rcases List.mem_append.mp hw with hfb | hside
    · obtain ⟨i, j, rfl | rfl⟩ := mem_face skipFB
        (fun floor wx => ((⟨bx + windowLocalX width wx, height / 2 + windowLocalY height floor,
            bz + depth / 2 + 1 / 100, Facing.front⟩, lit) : WindowSlot × Bool))
        (fun floor wx => ((⟨bx + windowLocalX width wx, height / 2 + windowLocalY height floor,
            bz - depth / 2 - 1 / 100, Facing.back⟩, lit) : WindowSlot × Bool))
        (numFloorsOf height) (numWindowsAcross width) w hfb
      · rfl
      · rfl
    · obtain ⟨i, j, rfl | rfl⟩ := mem_face skipLR
        (fun floor wz => ((⟨bx - width / 2 - 1 / 100, height / 2 + windowLocalY height floor,
            bz + windowLocalZ depth wz, Facing.left⟩, lit) : WindowSlot × Bool))
        (fun floor wz => ((⟨bx + width / 2 + 1 / 100, height / 2 + windowLocalY height floor,
            bz + windowLocalZ depth wz, Facing.right⟩, lit) : WindowSlot × Bool))
        (numFloorsOf height) (numWindowsAcross depth) w hside
      · rfl
      · rfl
  · simp [List.mem_filter]
  · simp [List.mem_filter]
  · unfold buildWindowInstances
    split_ifs <;> simp

/-- Claim C8 (witness): for the one-floor, one-column building at the
origin with height 3, width 2.5, depth 2.5 and a true lit roll, the front
window slot is generated and carries the building's lit flag. -/
theorem window_lit_partition_witness :
    ((⟨0, 5 / 2, 63 / 50, Facing.front⟩, true) : WindowSlot × Bool).2 = true :=
  (window_lit_partition 0 3 0 (5 / 2) (5 / 2) true (fun _ _ => false) (fun _ _ => false) []
      (⟨0, 5 / 2, 63 / 50, Facing.front⟩, true)).1
    (by norm_num [collectWindows, frontBackSlots, sideSlots, numFloorsOf, numWindowsAcross,
      windowLocalX, windowLocalY, windowLocalZ, WINDOW_SPACING_X, WINDOW_SPACING_Y])

/-- Claim C6: an item whose collected flag is already true is skipped
outright by the collectible update — the flag cannot revert and none of
the one-shot effects (just-collected result, particle burst, collect
animation) fire a second time, for any player position. -/
theorem collectible_collect_once (c : Collectible) (px pz : ℚ) (h : c.collected = true) :
    updateCollectible c px pz = (c, ⟨false, false, false⟩) := by
  unfold updateCollectible
  rw [if_pos h]

/-- Claim C6 (witness): a collected item at the player's exact position
is still not re-collected. -/
theorem collectible_collect_once_witness :
    updateCollectible ⟨0, 0, true⟩ 0 0 = (⟨0, 0, true⟩, ⟨false, false, false⟩) :=
  collectible_collect_once ⟨0, 0, true⟩ 0 0 rfl

/-- Claim C7: the walker's interpolated position at progress 0 on segment
i is exactly path[i]; and on an update tick whose incremented progress
reaches 1, progress resets to 0 and the segment index advances to
(i + 1) mod len, so the walker's next segment starts at
path[(i + 1) mod len]. -/
theorem walker_loop_closure (path : List (ℚ × ℚ)) (i : ℕ) (npc : NPCData) (delta : ℚ) :
    npcPosition path i 0 = path.getD i (0, 0) ∧
    (1 ≤ npc.progress + npc.speed * delta * 60 →
      (updateNPC npc delta).1.progress = 0 ∧
      (updateNPC npc delta).1.pathIndex = (npc.pathIndex + 1) % npc.path.length) := by
  constructor
  · simp [npcPosition]
  · intro hwrap
    refine ⟨?_, ?_⟩ <;> simp [updateNPC, hwrap]

/-- Claim C7 (witness): a walker on a two-point loop at progress 0.9 with
speed 0.03 and delta 0.1 wraps: progress resets to 0 and the index
advances from 0 to 1. -/
theorem walker_loop_closure_witness :
    (updateNPC ⟨[((0 : ℚ), (0 : ℚ)), (1, 0)], 0, 3 / 100, 9 / 10⟩ (1 / 10)).1.progress = 0 ∧
    (updateNPC ⟨[((0 : ℚ), (0 : ℚ)), (1, 0)], 0, 3 / 100, 9 / 10⟩ (1 / 10)).1.pathIndex
      = (0 + 1) % 2 :=
  (walker_loop_closure [] 0 ⟨[((0 : ℚ), (0 : ℚ)), (1, 0)], 0, 3 / 100, 9 / 10⟩ (1 / 10)).2
    (by norm_num)

/-- Claim C10: for any NPC with a nonempty path, index in range and
progress in [0, 1), any speed in the configured range
[NPC_MIN_SPEED, NPC_MIN_SPEED + NPC_SPEED_RANGE] = [0.015, 0.03] and any
frame delta within the 0.1-second cap, the per-tick progress increment
speed·delta·60 is at most 0.18 < 1, and after the tick progress is again
in [0, 1) and the index again in [0, path.length). -/
theorem npc_update_invariant (npc : NPCData) (delta : ℚ)
    (hlen : 0 < npc.path.length)
    (hidx : npc.pathIndex < npc.path.length)
    (hprog : 0 ≤ npc.progress ∧ npc.progress < 1)
    (hspeed : NPC_MIN_SPEED ≤ npc.speed ∧ npc.speed ≤ NPC_MIN_SPEED + NPC_SPEED_RANGE)
    (hdelta : 0 ≤ delta ∧ delta ≤ 1 / 10) :
    npc.speed * delta * 60 ≤ 9 / 50 ∧
    (0 ≤ (updateNPC npc delta).1.progress ∧ (updateNPC npc delta).1.progress < 1) ∧
    (updateNPC npc delta).1.pathIndex < npc.path.length := by
  have hsnn : 0 ≤ npc.speed := le_trans (by norm_num [NPC_MIN_SPEED]) hspeed.1
  have hinc : 0 ≤ npc.speed * delta * 60 :=
    mul_nonneg (mul_nonneg hsnn hdelta.1) (by norm_num)
  have hs2 : npc.speed ≤ 3 / 100 := by
    calc npc.speed ≤ NPC_MIN_SPEED + NPC_SPEED_RANGE := hspeed.2
      _ = 3 / 100 := by norm_num [NPC_MIN_SPEED, NPC_SPEED_RANGE]
  have hbound : npc.speed * delta * 60 ≤ 9 / 50 := by
    have h1 : npc.speed * delta ≤ (3 / 100) * (1 / 10) :=
      mul_le_mul hs2 hdelta.2 hdelta.1 (by norm_num)
    nlinarith [h1]
  refine ⟨hbound, ?_, ?_⟩
  · by_cases hw : 1 ≤ npc.progress + npc.speed * delta * 60
    · simp [updateNPC, hw]
    · simp only [updateNPC, if_neg hw]
      exact ⟨by linarith [hprog.1], by linarith [lt_of_not_le hw]⟩
  · by_cases hw : 1 ≤ npc.progress + npc.speed * delta * 60
    · simp only [updateNPC, if_pos hw]
      exact Nat.mod_lt _ hlen
    · simp only [updateNPC, if_neg hw]
      exact hidx

/-- Claim C10 (witness): instantiation at a two-point path, index 0,
progress 0, the minimum speed and the maximum frame delta. -/
theorem npc_update_invariant_witness :
    (0 ≤ (updateNPC ⟨[((0 : ℚ), (0 : ℚ)), (1, 0)], 0, 3 / 200, 0⟩ (1 / 10)).1.progress ∧
      (updateNPC ⟨[((0 : ℚ), (0 : ℚ)), (1, 0)], 0, 3 / 200, 0⟩ (1 / 10)).1.progress < 1) ∧
    (updateNPC ⟨[((0 : ℚ), (0 : ℚ)), (1, 0)], 0, 3 / 200, 0⟩ (1 / 10)).1.pathIndex < 2 :=
  (npc_update_invariant ⟨[((0 : ℚ), (0 : ℚ)), (1, 0)], 0, 3 / 200, 0⟩ (1 / 10)
    (by norm_num) (by norm_num) (by norm_num)
    (by norm_num [NPC_MIN_SPEED, NPC_SPEED_RANGE]) (by norm_num)).2

/-- Claim C9: when the WebGL capability probe fails, the code does show
the user-visible error message, but `init()` does not stop: city, NPC and
collectible generation still run after `setupScene` returns early, and
only the later access to the undefined renderer (in `setupControls`)
aborts the sequence with an uncaught TypeError, so controls setup and the
animation loop never start. This evaluates the startup model at the
failing input and exhibits the divergence from the claimed
fail-fast-with-no-further-execution policy. -/
theorem init_continues_after_probe_failure :
    (init false false).errorShown = true ∧
    (init false false).cityGenerated = true ∧
    (init false false).npcsGenerated = true ∧
    (init false false).collectiblesCreated = true ∧
    (init false false).controlsSetup = false ∧
    (init false false).animationStarted = false := by
  decide
